import Mathlib

/-!
Shallow embedding of the DatabaseVisualizer repository (src/utils.py and
src/app.py) and verification of the frozen claims about it.

Level 1 models the raw tabular layer (`pandas.DataFrame` with arbitrary
headers; cells are `Option String`, `none` standing for a null/NaN cell) and
`process_csv` from utils.py, together with the header validation performed in
app.py before `process_csv` is called.

Level 2 models the processed dataset as a list of (database, table, column)
rows of plain strings, and embeds `generate_network_graph` (the nested-box
layout), `generate_stats` (the grouped counts) from utils.py, and the
`filtered_df` computation from app.py.
-/

namespace DBViz

/-- Model of a pandas DataFrame: a list of column headers and a list of rows,
each row a list of cells aligned positionally with the headers; `none` is a
null/NaN cell. -/
structure DataFrame where
  headers : List String
  rows : List (List (Option String))
deriving DecidableEq, Repr

/-- Python's `str.capitalize`: first character upper-cased, the remaining
characters lower-cased (utils.py line 17 applies this to every header). -/
def pyCapitalize (s : String) : String :=
  match s.data.map Char.toLower with
  | [] => ""
  | c :: cs => ⟨c.toUpper :: cs⟩

/-- Column access `df[name]` used as a single column (a pandas Series): when
the label is absent the lookup raises `KeyError`, and when several columns
share the label the selection is a two-or-more-column DataFrame, on which the
subsequent Series operations of utils.py lines 30-32 (`.unique()`) raise
`AttributeError` — both error paths are modelled as `none`.  The label binds a
Series exactly when it occurs exactly once among the headers, and then the
result is that column's cells. -/
def getCol (df : DataFrame) (name : String) : Option (List (Option String)) :=
  if (df.headers.filter (· == name)).length = 1 then
    (df.headers.findIdx? (· == name)).map
      (fun i => df.rows.map (fun r => (r[i]?).getD none))
  else none

/-- First-seen-order deduplication, accumulating the values seen so far;
`uniqueList` below is pandas `Series.unique().tolist()`. -/
def uniqueAux [DecidableEq α] (seen : List α) : List α → List α
  | [] => []
  | x :: xs => if x ∈ seen then uniqueAux seen xs else x :: uniqueAux (x :: seen) xs

/-- pandas `unique`: the distinct values of a list in order of first occurrence. -/
def uniqueList [DecidableEq α] (l : List α) : List α := uniqueAux [] l

/-- The tuple returned by `process_csv` (utils.py line 37): the unique value
lists of the three columns and the processed DataFrame. -/
structure ProcessResult where
  databases : List (Option String)
  tables : List (Option String)
  columns : List (Option String)
  df_processed : DataFrame
deriving DecidableEq, Repr

/-- `process_csv` (utils.py lines 6-37).  Line 17 reassigns `df.columns` with
the capitalized headers, mutating the caller's DataFrame in place; the model
therefore returns both the function result (`none` models an uncaught
exception from the column accesses on lines 30-32: `KeyError` when a required
label is missing after capitalization, `AttributeError` when capitalization
made two headers collide so the selection is not a Series) and the post-call
state of the argument.  The `rename` on line 27 maps each expected name to
itself and is the identity.  No cell of any row is inspected or dropped. -/
def process_csv (df : DataFrame) : Option ProcessResult × DataFrame :=
  let df1 : DataFrame := ⟨df.headers.map pyCapitalize, df.rows⟩
  let res : Option ProcessResult := do
    let dbs ← getCol df1 "Database"
    let tbls ← getCol df1 "Table"
    let cols ← getCol df1 "Column"
    pure ⟨uniqueList dbs, uniqueList tbls, uniqueList cols, df1⟩
  (res, df1)

/-- `required_columns` (app.py line 43). -/
def required_columns : List String := ["Database", "Table", "Column"]

/-- The header validation on app.py line 44: every required column name must
occur verbatim (case-sensitively) among the uploaded file's headers. -/
def app_header_check (df : DataFrame) : Bool :=
  required_columns.all (fun c => df.headers.contains c)

/-- The app's build pipeline (app.py lines 43-48): validate the headers, then
run `process_csv`; `none` models the `st.error` path (validation failure, or a
`KeyError` escaping `process_csv` and caught by the outer handler). -/
def app_process (df : DataFrame) : Option ProcessResult :=
  if app_header_check df then (process_csv df).1 else none

/-- The logical (database, table, column) triples of a DataFrame, read off the
three bound columns; `none` when one of the three labels is absent. -/
def rowTriples (df : DataFrame) :
    Option (List (Option String × (Option String × Option String))) := do
  let d ← getCol df "Database"
  let t ← getCol df "Table"
  let c ← getCol df "Column"
  pure (d.zip (t.zip c))

/-- The input's triples under the case-insensitive field binding that
`process_csv` performs (headers capitalized, rows untouched). -/
def inputTriples (df : DataFrame) :
    Option (List (Option String × (Option String × Option String))) :=
  rowTriples ⟨df.headers.map pyCapitalize, df.rows⟩

/-- A row of the processed dataset handed to the layout, statistics and
filtering code: one (database, table, column) triple of strings. -/
structure Row where
  db : String
  tbl : String
  col : String
deriving DecidableEq, Repr

/-- `df['Database'].unique()` (utils.py line 55). -/
def databases (df : List Row) : List String := uniqueList (df.map Row.db)

/-- `df[df['Database'] == db_name]['Table'].unique()` (utils.py lines 92, 113). -/
def dbTables (df : List Row) (dbName : String) : List String :=
  uniqueList ((df.filter (fun r => r.db == dbName)).map Row.tbl)

/-- `df[(df['Database'] == db_name) & (df['Table'] == table_name)]['Column'].values`
(utils.py lines 102, 164); note this is `.values`, not `.unique()`, so
duplicate rows yield duplicate column entries. -/
def tableColumns (df : List Row) (dbName tblName : String) : List String :=
  (df.filter (fun r => r.db == dbName && r.tbl == tblName)).map Row.col

/-! Layout constants of `generate_network_graph` (utils.py lines 57-67, 81, 116). -/

/-- Padding between databases (utils.py line 58). -/
def db_padding : ℚ := 50

/-- Padding between tables (utils.py line 59). -/
def table_padding : ℚ := 20

/-- Padding between database and tables (utils.py line 60). -/
def vertical_padding : ℚ := 20

/-- Width of the database name box (utils.py line 63). -/
def db_name_width : ℚ := 30

/-- Height of the database name box (utils.py line 64). -/
def db_name_height : ℚ := 30

/-- Height of a table header (utils.py line 65). -/
def table_header_height : ℚ := 30

/-- Height of each column row (utils.py line 66). -/
def row_height : ℚ := 25

/-- Width of each table (utils.py line 67). -/
def table_width : ℚ := 150

/-- Top position of every database section (utils.py line 116). -/
def db_top : ℚ := 50

/-- Top position of every table: `db_top + vertical_padding` (utils.py line 170). -/
def table_y : ℚ := db_top + vertical_padding

/-- `table_height` for one table (utils.py lines 104, 167). -/
def tableHeight (df : List Row) (dbName tblName : String) : ℚ :=
  table_header_height + ((tableColumns df dbName tblName).length : ℚ) * row_height

/-- `max_table_height` for one database (utils.py lines 99-105). -/
def max_table_height (df : List Row) (dbName : String) : ℚ :=
  ((dbTables df dbName).map (tableHeight df dbName)).foldl max 0

/-- `db_max_heights[db_name]` (utils.py line 108). -/
def db_max_height (df : List Row) (dbName : String) : ℚ :=
  max_table_height df dbName + vertical_padding + 20

/-- `db_width` before flooring (utils.py line 95). -/
def db_width_raw (df : List Row) (dbName : String) : ℚ :=
  ((dbTables df dbName).length : ℚ) * (table_width + table_padding) - table_padding

/-- `db_widths[db_name]` (utils.py line 96): floored at the minimum width 150. -/
def db_width (df : List Row) (dbName : String) : ℚ :=
  max 150 (db_width_raw df dbName)

/-- `current_x` at the start of the k-th database section: starts at 80
(utils.py line 81) and advances by `db_width + table_padding + db_padding` per
database (utils.py lines 123, 258). -/
def db_left (df : List Row) (k : ℕ) : ℚ :=
  80 + (((databases df).take k).map
    (fun d => db_width df d + table_padding + db_padding)).sum

/-- `db_right` of the k-th database (utils.py line 123). -/
def db_right (df : List Row) (k : ℕ) (dbName : String) : ℚ :=
  db_left df k + db_width df dbName + table_padding

/-- `db_bottom` as first computed on utils.py line 119, the value used when the
database border rectangle is drawn on lines 148-156 (the later updates on
line 249 happen after the border shape is emitted). -/
def db_bottom_init (df : List Row) (dbName : String) : ℚ :=
  db_top + db_max_height df dbName + vertical_padding

/-- `db_bottom` after the per-table updates of utils.py line 249; this is the
value that feeds `max_height` on line 255. -/
def db_bottom_final (df : List Row) (dbName : String) : ℚ :=
  ((dbTables df dbName).map
    (fun t => table_y + tableHeight df dbName t + vertical_padding)).foldl max
    (db_bottom_init df dbName)

/-- A plotly primitive: `add_shape(type="rect")`, `add_shape(type="line")`, or
`add_annotation` (a text label). -/
inductive Shape
  | rect (x0 y0 x1 y1 : ℚ)
  | line (x0 y0 x1 y1 : ℚ)
  | label (x y : ℚ) (text : String)
deriving DecidableEq, Repr

/-- `row_y` of the j-th column row of a table (utils.py line 197). -/
def rowY (j : ℕ) : ℚ := table_y + table_header_height + (j : ℚ) * row_height

/-- The shapes emitted for the j-th column row of a table at x-position `tx`
(utils.py lines 195-245): row background rectangle, column-name label, the
divider line at 70% of the table width, and the placeholder "INT" type label. -/
def columnShapes (tx : ℚ) (j : ℕ) (colName : String) : List Shape :=
  [Shape.rect tx (rowY j) (tx + table_width) (rowY j + row_height),
   Shape.label (tx + 10) (rowY j + row_height / 2) colName,
   Shape.line (tx + table_width * (7 / 10)) (rowY j)
     (tx + table_width * (7 / 10)) (rowY j + row_height),
   Shape.label (tx + table_width * (85 / 100)) (rowY j + row_height / 2) "INT"]

/-- The shapes emitted for one table at x-position `tx` (utils.py lines
162-245): header rectangle, table-name label, then the column rows. -/
def tableShapes (df : List Row) (dbName : String) (tx : ℚ) (tblName : String) :
    List Shape :=
  [Shape.rect tx table_y (tx + table_width) (table_y + table_header_height),
   Shape.label (tx + 10) (table_y + table_header_height / 2) tblName] ++
  ((tableColumns df dbName tblName).enum.flatMap (fun p => columnShapes tx p.1 p.2))

/-- The database border rectangle of the k-th database (utils.py lines 148-156). -/
def dbBorderRect (df : List Row) (k : ℕ) (dbName : String) : Shape :=
  Shape.rect (db_left df k) db_top (db_right df k dbName) (db_bottom_init df dbName)

/-- The shapes emitted for the k-th database (utils.py lines 111-252): name tag
box outside to the left, database-name label, border rectangle, then each
table at `db_left + 20 + i * (table_width + table_padding)` (lines 159, 252). -/
def dbShapes (df : List Row) (k : ℕ) (dbName : String) : List Shape :=
  [Shape.rect (db_left df k - db_name_width) db_top (db_left df k)
     (db_top + db_name_height),
   Shape.label (db_left df k - db_name_width / 2) (db_top + db_name_height / 2)
     dbName,
   dbBorderRect df k dbName] ++
  ((dbTables df dbName).enum.flatMap
    (fun p => tableShapes df dbName
      (db_left df k + 20 + (p.1 : ℚ) * (table_width + table_padding)) p.2))

/-- `max_height` after the loop over all databases (utils.py lines 84, 255). -/
def max_height (df : List Row) : ℚ :=
  ((databases df).map (db_bottom_final df)).foldl max 0

/-- The figure returned by `generate_network_graph`: its emitted primitives and
the canvas bounds set in `update_layout` (utils.py lines 260-282): width is the
final `current_x`, height is `max_height + 60`. -/
structure Diagram where
  shapes : List Shape
  width : ℚ
  height : ℚ
deriving DecidableEq, Repr

/-- `generate_network_graph` (utils.py lines 39-284). -/
def generate_network_graph (df : List Row) : Diagram :=
  ⟨(databases df).enum.flatMap (fun p => dbShapes df p.1 p.2),
   db_left df (databases df).length,
   max_height df + 60⟩

/-! Statistics (`generate_stats`, utils.py lines 286-343). -/

/-- `df.groupby('Database')['Table'].nunique()` for one database (utils.py
line 297): the number of distinct tables of that database. -/
def db_table_counts (df : List Row) (dbName : String) : ℕ :=
  (dbTables df dbName).length

/-- `df.groupby(['Database', 'Table'])['Column'].count()` for one group
(utils.py line 301): the number of rows of that (database, table) group. -/
def table_counts (df : List Row) (dbName tblName : String) : ℕ :=
  (tableColumns df dbName tblName).length

/-- `df.groupby('Database')['Column'].count()` for one database (utils.py
line 305): the number of rows of that database. -/
def db_column_counts (df : List Row) (dbName : String) : ℕ :=
  (df.filter (fun r => r.db == dbName)).length

/-! Filtering (app.py lines 67-83). -/

/-- The app's `selected_tables` (app.py lines 67-76): the user's multiselect
choice when some database is selected, `[]` otherwise. -/
def app_selected_tables (selected_db user_choice : List String) : List String :=
  if selected_db.isEmpty then [] else user_choice

/-- `filtered_df` (app.py lines 78-83): the database filter is applied only
when `selected_db` is non-empty (Python truthiness), and likewise the table
filter only when `selected_tables` is non-empty. -/
def filtered_df (df : List Row) (selected_db selected_tables : List String) :
    List Row :=
  let f1 := if selected_db.isEmpty then df
    else df.filter (fun r => selected_db.contains r.db)
  if selected_tables.isEmpty then f1
  else f1.filter (fun r => selected_tables.contains r.tbl)

/-! Concrete inputs used by witnesses and counterexamples. -/

/-- A dataset whose single row has a null `Database` cell. -/
def dfBad : DataFrame := ⟨["Database", "Table", "Column"], [[none, some "T", some "C"]]⟩

/-- A dataset whose single row has an empty-string `Table` cell. -/
def dfBad2 : DataFrame := ⟨["Database", "Table", "Column"], [[some "A", some "", some "C"]]⟩

/-- A dataset with all-lower-case headers. -/
def dfLower : DataFrame := ⟨["database", "table", "column"], [[some "A", some "T", some "C"]]⟩

/-- A dataset with all-upper-case headers. -/
def dfUpper : DataFrame := ⟨["DATABASE", "TABLE", "COLUMN"], []⟩

/-- A two-row well-formed dataset. -/
def dfW : DataFrame :=
  ⟨["Database", "Table", "Column"],
   [[some "A", some "T", some "C"], [some "B", some "T", some "C"]]⟩

/-- `dfW` with its rows reordered and one row duplicated. -/
def dfW' : DataFrame :=
  ⟨["Database", "Table", "Column"],
   [[some "B", some "T", some "C"], [some "A", some "T", some "C"],
    [some "A", some "T", some "C"]]⟩

/-- A single processed row. -/
def exRow : Row := ⟨"A", "T1", "C1"⟩

/-- A single-row processed dataset. -/
def exDf1 : List Row := [⟨"A", "T1", "C1"⟩]

/-- The worked example of the spec:
rows (A,T1,C1), (A,T1,C2), (A,T2,C1), (B,T1,C1). -/
def exDf : List Row :=
  [⟨"A", "T1", "C1"⟩, ⟨"A", "T1", "C2"⟩, ⟨"A", "T2", "C1"⟩, ⟨"B", "T1", "C1"⟩]

/-- A processed dataset with two databases, two tables in the first. -/
def exDf5 : List Row := [⟨"A", "T1", "C1"⟩, ⟨"A", "T2", "C1"⟩, ⟨"B", "T1", "C1"⟩]

/-- A processed dataset with a like-named table in two databases. -/
def exDf10 : List Row := [⟨"A", "T1", "C1"⟩, ⟨"B", "T1", "C2"⟩]

/-! Helper lemmas about `uniqueList`. -/

theorem mem_uniqueAux [DecidableEq α] (x : α) (seen l : List α) :
    x ∈ uniqueAux seen l ↔ x ∈ l ∧ x ∉ seen := by
  induction l generalizing seen with
  | nil => simp [uniqueAux]
  | cons y ys ih =>
    by_cases hy : y ∈ seen
    · rw [uniqueAux, if_pos hy, ih]
      constructor
      · exact fun ⟨h1, h2⟩ => ⟨List.mem_cons_of_mem _ h1, h2⟩
      · rintro ⟨h1, h2⟩
        rcases List.mem_cons.mp h1 with h1 | h1
        · exact absurd (h1 ▸ hy) h2
        · exact ⟨h1, h2⟩
    · rw [uniqueAux, if_neg hy]
      by_cases hxy : x = y
      · subst hxy
        simp [hy]
      · simp only [List.mem_cons, hxy, false_or]
        rw [ih]
        simp [hxy]

theorem nodup_uniqueAux [DecidableEq α] (seen l : List α) :
    (uniqueAux seen l).Nodup := by
  induction l generalizing seen with
  | nil => exact List.nodup_nil
  | cons y ys ih =>
    by_cases hy : y ∈ seen
    · rw [uniqueAux, if_pos hy]
      exact ih seen
    · rw [uniqueAux, if_neg hy]
      refine List.nodup_cons.mpr ⟨fun hmem => ?_, ih _⟩
      exact ((mem_uniqueAux y (y :: seen) ys).mp hmem).2 (List.mem_cons_self y seen)

theorem mem_uniqueList [DecidableEq α] (x : α) (l : List α) :
    x ∈ uniqueList l ↔ x ∈ l := by
  rw [uniqueList, mem_uniqueAux]
  simp

theorem nodup_uniqueList [DecidableEq α] (l : List α) : (uniqueList l).Nodup :=
  nodup_uniqueAux [] l

theorem toFinset_uniqueList [DecidableEq α] (l : List α) :
    (uniqueList l).toFinset = l.toFinset := by
  ext a
  simp [mem_uniqueList]

theorem length_uniqueList_append_self [DecidableEq α] (l : List α) :
    (uniqueList (l ++ l)).length = (uniqueList l).length := by
  rw [← List.toFinset_card_of_nodup (nodup_uniqueList (l ++ l)),
    ← List.toFinset_card_of_nodup (nodup_uniqueList l),
    toFinset_uniqueList, toFinset_uniqueList, List.toFinset_append,
    Finset.union_self]

/-! Helper lemmas about `getCol`, `process_csv` and `rowTriples`. -/

theorem getCol_isSome (df : DataFrame) (name : String)
    (h : (df.headers.filter (· == name)).length = 1) :
    ∃ c, getCol df name = some c := by
  have hne : df.headers.filter (· == name) ≠ [] := by
    intro he
    rw [he] at h
    simp at h
  obtain ⟨x, hx⟩ := List.exists_mem_of_ne_nil _ hne
  have hs : (df.headers.findIdx? (· == name)).isSome = true := by
    rw [List.findIdx?_isSome, List.any_eq_true]
    exact ⟨x, (List.mem_filter.mp hx).1, (List.mem_filter.mp hx).2⟩
  obtain ⟨i, hi⟩ := Option.isSome_iff_exists.mp hs
  exact ⟨df.rows.map (fun r => (r[i]?).getD none), by simp [getCol, h, hi]⟩

theorem getCol_eq_some (df : DataFrame) (name : String)
    (c : List (Option String)) (h : getCol df name = some c) :
    ∃ i, (df.headers.filter (· == name)).length = 1 ∧
      df.headers.findIdx? (· == name) = some i ∧
      c = df.rows.map (fun r => (r[i]?).getD none) := by
  rw [getCol] at h
  by_cases hl : (df.headers.filter (· == name)).length = 1
  · rw [if_pos hl] at h
    cases hf : df.headers.findIdx? (· == name) with
    | none => rw [hf] at h; simp at h
    | some i =>
      rw [hf] at h
      simp at h
      exact ⟨i, hl, rfl, h.symm⟩
  · rw [if_neg hl] at h
    simp at h

theorem process_csv_fst (df : DataFrame) :
    (process_csv df).1 =
      (getCol ⟨df.headers.map pyCapitalize, df.rows⟩ "Database").bind (fun dbs =>
        (getCol ⟨df.headers.map pyCapitalize, df.rows⟩ "Table").bind (fun tbls =>
          (getCol ⟨df.headers.map pyCapitalize, df.rows⟩ "Column").bind (fun cols =>
            some ⟨uniqueList dbs, uniqueList tbls, uniqueList cols,
              ⟨df.headers.map pyCapitalize, df.rows⟩⟩))) := rfl

theorem process_csv_some (df : DataFrame)
    (h1 : ((df.headers.map pyCapitalize).filter (· == "Database")).length = 1)
    (h2 : ((df.headers.map pyCapitalize).filter (· == "Table")).length = 1)
    (h3 : ((df.headers.map pyCapitalize).filter (· == "Column")).length = 1) :
    ∃ res, (process_csv df).1 = some res ∧
      res.df_processed = ⟨df.headers.map pyCapitalize, df.rows⟩ := by
  obtain ⟨d, hd⟩ := getCol_isSome ⟨df.headers.map pyCapitalize, df.rows⟩ "Database" h1
  obtain ⟨t, ht⟩ := getCol_isSome ⟨df.headers.map pyCapitalize, df.rows⟩ "Table" h2
  obtain ⟨c, hc⟩ := getCol_isSome ⟨df.headers.map pyCapitalize, df.rows⟩ "Column" h3
  refine ⟨⟨uniqueList d, uniqueList t, uniqueList c,
    ⟨df.headers.map pyCapitalize, df.rows⟩⟩, ?_, rfl⟩
  rw [process_csv_fst, hd, ht, hc]
  rfl

theorem process_csv_isSome_iff (df : DataFrame) :
    ((process_csv df).1).isSome = true ↔
      (((df.headers.map pyCapitalize).filter (· == "Database")).length = 1 ∧
       ((df.headers.map pyCapitalize).filter (· == "Table")).length = 1 ∧
       ((df.headers.map pyCapitalize).filter (· == "Column")).length = 1) := by
  constructor
  · intro h
    rw [process_csv_fst] at h
    cases hd : getCol ⟨df.headers.map pyCapitalize, df.rows⟩ "Database" with
    | none => rw [hd] at h; simp at h
    | some d =>
      cases ht : getCol ⟨df.headers.map pyCapitalize, df.rows⟩ "Table" with
      | none => rw [hd, ht] at h; simp at h
      | some t =>
        cases hc : getCol ⟨df.headers.map pyCapitalize, df.rows⟩ "Column" with
        | none => rw [hd, ht, hc] at h; simp at h
        | some c =>
          obtain ⟨_, hl1, _, _⟩ := getCol_eq_some _ "Database" d hd
          obtain ⟨_, hl2, _, _⟩ := getCol_eq_some _ "Table" t ht
          obtain ⟨_, hl3, _, _⟩ := getCol_eq_some _ "Column" c hc
          exact ⟨hl1, hl2, hl3⟩
  · rintro ⟨h1, h2, h3⟩
    obtain ⟨res, hres, _⟩ := process_csv_some df h1 h2 h3
    rw [hres]
    rfl

theorem rowTriples_eq_map (df : DataFrame) (i1 i2 i3 : ℕ)
    (hl1 : (df.headers.filter (· == "Database")).length = 1)
    (hl2 : (df.headers.filter (· == "Table")).length = 1)
    (hl3 : (df.headers.filter (· == "Column")).length = 1)
    (h1 : df.headers.findIdx? (· == "Database") = some i1)
    (h2 : df.headers.findIdx? (· == "Table") = some i2)
    (h3 : df.headers.findIdx? (· == "Column") = some i3) :
    rowTriples df = some (df.rows.map (fun r =>
      ((r[i1]?).getD none, ((r[i2]?).getD none, (r[i3]?).getD none)))) := by
  simp [rowTriples, getCol, hl1, hl2, hl3, h1, h2, h3, List.zip_map']

theorem rowTriples_some (df : DataFrame)
    (tr : List (Option String × (Option String × Option String)))
    (h : rowTriples df = some tr) :
    ∃ i1 i2 i3,
      df.headers.findIdx? (· == "Database") = some i1 ∧
      df.headers.findIdx? (· == "Table") = some i2 ∧
      df.headers.findIdx? (· == "Column") = some i3 ∧
      tr = df.rows.map (fun r =>
        ((r[i1]?).getD none, ((r[i2]?).getD none, (r[i3]?).getD none))) := by
  cases hd : getCol df "Database" with
  | none => simp [rowTriples, hd] at h
  | some d =>
    cases ht : getCol df "Table" with
    | none => simp [rowTriples, hd, ht] at h
    | some t =>
      cases hc : getCol df "Column" with
      | none => simp [rowTriples, hd, ht, hc] at h
      | some c =>
        obtain ⟨i1, hl1, hf1, _⟩ := getCol_eq_some df "Database" d hd
        obtain ⟨i2, hl2, hf2, _⟩ := getCol_eq_some df "Table" t ht
        obtain ⟨i3, hl3, hf3, _⟩ := getCol_eq_some df "Column" c hc
        refine ⟨i1, i2, i3, hf1, hf2, hf3, ?_⟩
        have heq := rowTriples_eq_map df i1 i2 i3 hl1 hl2 hl3 hf1 hf2 hf3
        rw [heq] at h
        exact (Option.some_inj.mp h).symm

theorem toFinset_list_map [DecidableEq α] [DecidableEq β] (f : α → β) (l : List α) :
    (l.map f).toFinset = l.toFinset.image f := by
  ext b
  simp

theorem process_csv_df_processed (df : DataFrame) (res : ProcessResult)
    (h : (process_csv df).1 = some res) :
    res.df_processed = ⟨df.headers.map pyCapitalize, df.rows⟩ := by
  dsimp [process_csv] at h
  cases h1 : getCol ⟨df.headers.map pyCapitalize, df.rows⟩ "Database" with
  | none => rw [h1] at h; simp at h
  | some d =>
    cases h2 : getCol ⟨df.headers.map pyCapitalize, df.rows⟩ "Table" with
    | none => rw [h1, h2] at h; simp at h
    | some t =>
      cases h3 : getCol ⟨df.headers.map pyCapitalize, df.rows⟩ "Column" with
      | none => rw [h1, h2, h3] at h; simp at h
      | some c =>
        rw [h1, h2, h3] at h
        simp at h
        rw [← h]

/-! Claim C1. -/

/-- Claim C1, counterexample: on an input whose single row has a null
`Database` cell, `process_csv` succeeds (there is no `InvalidRowError`
failure) and the returned model contains the offending row. -/
theorem claim_c1_cex :
    (process_csv dfBad).1 = some ⟨[none], [some "T"], [some "C"], dfBad⟩ ∧
    [none, some "T", some "C"] ∈ dfBad.rows :=
  ⟨rfl, by decide⟩

/-- Claim C1 (amended): `process_csv` performs no per-row validation.  For
every input on which it runs to completion — each required field bound by
exactly one capitalized header, so the three column selections of utils.py
lines 30-32 are Series and raise nothing — it succeeds without any
`InvalidRowError`, and the processed model retains every input row verbatim,
so rows with null or empty values in the `Database`, `Table` or `Column`
field are neither rejected nor dropped. -/
theorem claim_c1 (df : DataFrame)
    (h1 : ((df.headers.map pyCapitalize).filter (· == "Database")).length = 1)
    (h2 : ((df.headers.map pyCapitalize).filter (· == "Table")).length = 1)
    (h3 : ((df.headers.map pyCapitalize).filter (· == "Column")).length = 1) :
    ∃ res, (process_csv df).1 = some res ∧ res.df_processed.rows = df.rows := by
  obtain ⟨res, hres, hdf⟩ := process_csv_some df h1 h2 h3
  exact ⟨res, hres, by rw [hdf]⟩

/-- Claim C1, witness: the amended claim applied to an input whose single row
has an empty-string `Table` cell. -/
theorem claim_c1_witness :
    ∃ res, (process_csv dfBad2).1 = some res ∧ res.df_processed.rows = dfBad2.rows :=
  claim_c1 dfBad2 rfl rfl rfl

/-! Claim C2. -/

/-- Claim C2, counterexample: with an empty selected-databases set (and hence,
per app.py lines 75-76, an empty selected-tables list) the filtered model is
the full input, not the empty model the claim asserts. -/
theorem claim_c2_cex :
    filtered_df [exRow] [] [] = [exRow] ∧ ([exRow] : List Row) ≠ [] :=
  ⟨rfl, by decide⟩

/-- Claim C2 (amended): an empty selected-databases set leaves the dataset
completely unfiltered — the `if selected_db:` guard skips the database filter,
an implicit select-all fallback at the app's filtering layer — so together
with the app's forcing of `selected_tables = []` in that case the filtered
model equals the full model. -/
theorem claim_c2 (df : List Row) (user_choice : List String) :
    filtered_df df [] (app_selected_tables [] user_choice) = df := rfl

/-! Claim C3. -/

/-- Claim C3, counterexample: duplicating the single input row changes the
columns-per-database count (pandas `count` counts rows, it does not
deduplicate), and the columns-per-table count differs from the number of
distinct columns of the table. -/
theorem claim_c3_cex :
    db_column_counts [exRow, exRow] "A" ≠ db_column_counts [exRow] "A" ∧
    table_counts [exRow, exRow] "A" "T1" ≠
      (uniqueList (tableColumns [exRow, exRow] "A" "T1")).length :=
  ⟨by decide, by decide⟩

/-- Claim C3 (amended): tables-per-database counts distinct tables (`nunique`)
and is unchanged by duplicating the input rows, but columns-per-database uses
`count` and counts rows, so duplicating the input doubles it; on the
duplicate-free example rows (A,T1,C1), (A,T1,C2), (A,T2,C1), (B,T1,C1) the
stats are tablesPerDatabase = {A: 2, B: 1} and columnsPerDatabase = {A: 3, B: 1}
as the spec states. -/
theorem claim_c3 :
    (∀ (df : List Row) (dn : String),
      db_table_counts (df ++ df) dn = db_table_counts df dn) ∧
    (∀ (df : List Row) (dn : String),
      db_column_counts (df ++ df) dn = 2 * db_column_counts df dn) ∧
    db_table_counts exDf "A" = 2 ∧ db_table_counts exDf "B" = 1 ∧
    db_column_counts exDf "A" = 3 ∧ db_column_counts exDf "B" = 1 := by
  refine ⟨?_, ?_, by decide, by decide, by decide, by decide⟩
  · intro df dn
    rw [db_table_counts, db_table_counts, dbTables, dbTables, List.filter_append,
      List.map_append]
    exact length_uniqueList_append_self _
  · intro df dn
    rw [db_column_counts, db_column_counts, List.filter_append, List.length_append]
    omega

/-! Claim C4. -/

/-- Claim C4, counterexample: `process_csv` mutates its argument — after the
call, a DataFrame whose headers were upper-case has capitalized headers. -/
theorem claim_c4_cex : (process_csv dfUpper).2 ≠ dfUpper := by decide

/-- Claim C4 (amended): `generate_network_graph` and `generate_stats` only
read the dataset, but `process_csv` reassigns `df.columns` in place: after the
call the argument's headers are their capitalized forms (rows unchanged), and
the argument is left unchanged exactly when its headers were already
capitalized. -/
theorem claim_c4 (df : DataFrame) :
    (process_csv df).2.headers = df.headers.map pyCapitalize ∧
    (process_csv df).2.rows = df.rows ∧
    ((process_csv df).2 = df ↔ df.headers.map pyCapitalize = df.headers) := by
  refine ⟨rfl, rfl, ?_, ?_⟩
  · intro h
    exact congrArg DataFrame.headers h
  · intro h
    cases df with
    | mk hs rs => simp [process_csv, h]

/-! Claim C6. -/

/-- Claim C6, counterexample: an input with all-lower-case headers carries all
three required fields under a casing that `process_csv` would bind (its
capitalized headers contain `Database`), yet the app's build pipeline fails,
because the case-sensitive header validation runs before any capitalization. -/
theorem claim_c6_cex :
    app_process dfLower = none ∧ "Database" ∈ dfLower.headers.map pyCapitalize :=
  ⟨rfl, by decide⟩

/-- Claim C6 (amended): the app's build pipeline succeeds exactly when the
headers contain the three required names `Database`, `Table`, `Column`
verbatim — the validation on app.py line 44 is case-sensitive and precedes
`process_csv`'s capitalize normalization, so other casings are rejected (with
a fixed message naming all three required headers, not the missing ones) —
and, in addition, each required name is matched by exactly one capitalized
header: when two headers collide under capitalization (say `Database` and
`DATABASE`), the selection on utils.py lines 30-32 is not a Series and
`.unique()` raises, so the pipeline errors although all three verbatim names
are present. -/
theorem claim_c6 (df : DataFrame) :
    (app_process df).isSome = true ↔
      (("Database" ∈ df.headers ∧ "Table" ∈ df.headers ∧ "Column" ∈ df.headers) ∧
       ((df.headers.map pyCapitalize).filter (· == "Database")).length = 1 ∧
       ((df.headers.map pyCapitalize).filter (· == "Table")).length = 1 ∧
       ((df.headers.map pyCapitalize).filter (· == "Column")).length = 1) := by
  rw [app_process]
  by_cases hc : app_header_check df = true
  · rw [if_pos hc, process_csv_isSome_iff]
    have hmem : "Database" ∈ df.headers ∧ "Table" ∈ df.headers ∧
        "Column" ∈ df.headers := by
      simpa [app_header_check, required_columns, List.all_eq_true] using hc
    simp [hmem]
  · rw [if_neg hc]
    simp only [Option.isSome_none, Bool.false_eq_true, false_iff]
    rintro ⟨⟨hd, ht, hcm⟩, -⟩
    apply hc
    simp only [app_header_check, required_columns, List.all_eq_true]
    intro x hx
    simp only [List.mem_cons, List.not_mem_nil, or_false] at hx
    rcases hx with rfl | rfl | rfl
    · exact List.elem_iff.mpr hd
    · exact List.elem_iff.mpr ht
    · exact List.elem_iff.mpr hcm

/-! Claim C9. -/

/-- Claim C9, counterexample: on an empty model the canvas bounds are not
zero-size — the width is the initial x offset 80 and the height is the 60 of
margin, not 0 and 0. -/
theorem claim_c9_cex :
    ¬ ((generate_network_graph ([] : List Row)).width = 0 ∧
       (generate_network_graph ([] : List Row)).height = 0) := by
  norm_num [generate_network_graph, db_left, databases, uniqueList, uniqueAux,
    max_height]

/-- Claim C9 (amended): with zero databases `generate_network_graph` succeeds
and emits no rectangle, line or label primitive, but the canvas bounds are
width 80 (the initial `current_x`) and height 60 (the `max_height + 60`
margin with `max_height = 0`), not a zero-size canvas. -/
theorem claim_c9 (df : List Row) (h : databases df = []) :
    generate_network_graph df = ⟨[], 80, 60⟩ := by
  simp [generate_network_graph, h, db_left, max_height]

/-- Claim C9, witness: the amended claim applied to the empty dataset. -/
theorem claim_c9_witness : generate_network_graph ([] : List Row) = ⟨[], 80, 60⟩ :=
  claim_c9 [] rfl

/-! Geometry lemmas for the nested-box layout. -/

theorem rect_of_mem_columnShapes {tx : ℚ} {j : ℕ} {cn : String} {a b c d : ℚ}
    (h : Shape.rect a b c d ∈ columnShapes tx j cn) :
    a = tx ∧ c = tx + table_width := by
  simp [columnShapes] at h
  exact ⟨h.1, h.2.2.1⟩

theorem rect_of_mem_tableShapes (df : List Row) (dn : String) (tx : ℚ) (tn : String)
    {a b c d : ℚ} (h : Shape.rect a b c d ∈ tableShapes df dn tx tn) :
    a = tx ∧ c = tx + table_width := by
  simp only [tableShapes, List.mem_append, List.mem_cons, List.not_mem_nil,
    or_false, List.mem_flatMap] at h
  rcases h with (h | h) | ⟨p, _, h⟩
  · simp at h
    exact ⟨h.1, h.2.2.1⟩
  · simp at h
  · exact rect_of_mem_columnShapes h

theorem db_width_ge (df : List Row) (dn : String) : 150 ≤ db_width df dn :=
  le_max_left _ _

theorem db_left_succ (df : List Row) (k : ℕ) (dn : String)
    (h : (databases df)[k]? = some dn) :
    db_left df (k + 1) =
      db_left df k + (db_width df dn + table_padding + db_padding) := by
  rw [db_left, db_left, List.take_succ, h]
  simp [List.sum_append]
  ring

theorem db_left_le_succ (df : List Row) (k : ℕ) :
    db_left df k ≤ db_left df (k + 1) := by
  rw [db_left, db_left, List.take_succ, List.map_append, List.sum_append]
  have h0 : 0 ≤ ((((databases df)[k]?).toList).map
      (fun d => db_width df d + table_padding + db_padding)).sum := by
    cases hk : (databases df)[k]? with
    | none => simp
    | some dn =>
      have := db_width_ge df dn
      simp [table_padding, db_padding]
      linarith
  linarith

theorem db_left_mono (df : List Row) {k k' : ℕ} (h : k ≤ k') :
    db_left df k ≤ db_left df k' := by
  induction h with
  | refl => exact le_refl _
  | step _ ih => exact le_trans ih (db_left_le_succ df _)

theorem dbs_leftOf (df : List Row) (k k' : ℕ) (dn : String)
    (hk : (databases df)[k]? = some dn) (hlt : k < k') :
    db_right df k dn < db_left df k' := by
  have h1 := db_left_succ df k dn hk
  have h2 := db_left_mono df (Nat.succ_le_of_lt hlt)
  rw [h1] at h2
  rw [db_right]
  simp only [table_padding, db_padding] at h2 ⊢
  linarith

/-! Claim C5. -/

/-- Claim C5 (confirmed): in the nested-box layout, any two rectangles (header
or column row) belonging to two distinct sibling tables of the same database
have disjoint x-ranges, and the border rectangles of two distinct databases
have disjoint x-ranges. -/
theorem claim_c5 (df : List Row) :
    (∀ (k i i' : ℕ) (dn t t' : String) (a b c d a' b' c' d' : ℚ),
      (databases df)[k]? = some dn →
      (dbTables df dn)[i]? = some t → (dbTables df dn)[i']? = some t' → i ≠ i' →
      Shape.rect a b c d ∈ tableShapes df dn
        (db_left df k + 20 + (i : ℚ) * (table_width + table_padding)) t →
      Shape.rect a' b' c' d' ∈ tableShapes df dn
        (db_left df k + 20 + (i' : ℚ) * (table_width + table_padding)) t' →
      c < a' ∨ c' < a) ∧
    (∀ (k k' : ℕ) (dn dn' : String), k ≠ k' →
      (databases df)[k]? = some dn → (databases df)[k']? = some dn' →
      db_right df k dn < db_left df k' ∨ db_right df k' dn' < db_left df k) := by
  constructor
  · intro k i i' dn t t' a b c d a' b' c' d' _ _ _ hne hm hm'
    obtain ⟨ha, hc⟩ := rect_of_mem_tableShapes df dn _ t hm
    obtain ⟨ha', hc'⟩ := rect_of_mem_tableShapes df dn _ t' hm'
    subst ha hc ha' hc'
    simp only [table_width, table_padding]
    rcases hne.lt_or_lt with hlt | hlt
    · left
      have hcast : (i : ℚ) + 1 ≤ (i' : ℚ) := by
        exact_mod_cast Nat.succ_le_of_lt hlt
      linarith
    · right
      have hcast : (i' : ℚ) + 1 ≤ (i : ℚ) := by
        exact_mod_cast Nat.succ_le_of_lt hlt
      linarith
  · intro k k' dn dn' hne hk hk'
    rcases hne.lt_or_lt with hlt | hlt
    · exact Or.inl (dbs_leftOf df k k' dn hk hlt)
    · exact Or.inr (dbs_leftOf df k' k dn' hk' hlt)

/-- Claim C5, witness: in the three-row example with databases A and B and
tables T1, T2 under A, the header rectangles of T1 and T2 are disjoint in x,
and the borders of the two databases are disjoint in x. -/
theorem claim_c5_witness :
    ((250 : ℚ) < 270 ∨ (420 : ℚ) < 100) ∧
    (db_right exDf5 0 "A" < db_left exDf5 1 ∨
      db_right exDf5 1 "B" < db_left exDf5 0) := by
  constructor
  · refine (claim_c5 exDf5).1 0 0 1 "A" "T1" "T2" 100 70 250 100 270 70 420 100
      rfl rfl rfl (by decide) ?_ ?_
    · have h2 : tableColumns exDf5 "A" "T1" = ["C1"] := rfl
      norm_num [tableShapes, columnShapes, h2, db_left, databases, exDf5,
        uniqueList, uniqueAux, table_y, db_top, vertical_padding, table_width,
        table_header_height, table_padding, db_padding, rowY, row_height]
    · have h2 : tableColumns exDf5 "A" "T2" = ["C1"] := rfl
      norm_num [tableShapes, columnShapes, h2, db_left, databases, exDf5,
        uniqueList, uniqueAux, table_y, db_top, vertical_padding, table_width,
        table_header_height, table_padding, db_padding, rowY, row_height]
  · exact (claim_c5 exDf5).2 0 1 "A" "B" (by decide) rfl rfl

/-! Claim C7. -/

/-- Claim C7 (confirmed): building with `process_csv` keeps the model's
(database, table, column) triples literally equal to the input's triples under
the bound headers, and the set of unique triples read off the bound columns is
invariant under any reordering or duplication of the input rows (any change of
the rows that preserves their set). -/
theorem claim_c7 :
    (∀ df res, (process_csv df).1 = some res →
      rowTriples res.df_processed = inputTriples df) ∧
    (∀ (df df' : DataFrame) tr tr', df'.headers = df.headers →
      df'.rows.toFinset = df.rows.toFinset →
      inputTriples df = some tr → inputTriples df' = some tr' →
      tr'.toFinset = tr.toFinset) := by
  constructor
  · intro df res h
    rw [process_csv_df_processed df res h]
    rfl
  · intro df df' tr tr' hh hr h1 h2
    obtain ⟨i1, i2, i3, f1, f2, f3, htr⟩ := rowTriples_some _ tr h1
    obtain ⟨j1, j2, j3, g1, g2, g3, htr'⟩ := rowTriples_some _ tr' h2
    dsimp at f1 f2 f3 g1 g2 g3 htr htr'
    rw [hh] at g1 g2 g3
    rw [f1] at g1
    rw [f2] at g2
    rw [f3] at g3
    obtain rfl : i1 = j1 := Option.some_inj.mp g1
    obtain rfl : i2 = j2 := Option.some_inj.mp g2
    obtain rfl : i3 = j3 := Option.some_inj.mp g3
    rw [htr, htr', toFinset_list_map, toFinset_list_map, hr]

/-- Claim C7, witness: the round-trip and order/duplication invariance applied
to a concrete two-row input and a reordered, duplicated variant of it. -/
theorem claim_c7_witness :
    rowTriples dfW = inputTriples dfW ∧
    ([((some "B" : Option String), ((some "T" : Option String), (some "C" : Option String))),
      (some "A", (some "T", some "C")), (some "A", (some "T", some "C"))].toFinset =
     [((some "A" : Option String), ((some "T" : Option String), (some "C" : Option String))),
      (some "B", (some "T", some "C"))].toFinset) := by
  constructor
  · exact claim_c7.1 dfW ⟨[some "A", some "B"], [some "T"], [some "C"], dfW⟩ rfl
  · exact claim_c7.2 dfW dfW'
      [((some "A" : Option String), ((some "T" : Option String), (some "C" : Option String))),
       (some "B", (some "T", some "C"))]
      [((some "B" : Option String), ((some "T" : Option String), (some "C" : Option String))),
       (some "A", (some "T", some "C")), (some "A", (some "T", some "C"))]
      rfl (by decide) rfl rfl

/-! Claim C8. -/

/-- Claim C8, counterexample: for a database with one table the drawn border
rectangle is 170 wide, not the claimed `max(150, 1*(150+20)-20) = 150` — the
drawing adds one further `table_padding` to the precomputed width. -/
theorem claim_c8_cex :
    db_right exDf1 0 "A" - db_left exDf1 0 ≠
      max 150 (((dbTables exDf1 "A").length : ℚ) * (table_width + table_padding)
        - table_padding) := by
  have h : dbTables exDf1 "A" = ["T1"] := rfl
  rw [h]
  norm_num [db_right, db_left, db_width, db_width_raw, h, table_padding,
    db_padding, table_width]

/-- Claim C8 (amended): the database border rectangle emitted for the k-th
database is part of the diagram and its width is
`max(150, n*(table_width + table_padding) - table_padding) + table_padding`,
i.e. the claimed `max(150, n*(150+20)-20)` plus one further table padding of
20 that utils.py line 123 adds when placing `db_right`. -/
theorem claim_c8 (df : List Row) (k : ℕ) (dn : String)
    (h : (databases df)[k]? = some dn) :
    dbBorderRect df k dn ∈ (generate_network_graph df).shapes ∧
    db_right df k dn - db_left df k =
      max 150 (((dbTables df dn).length : ℚ) * (table_width + table_padding)
        - table_padding) + table_padding := by
  constructor
  · show dbBorderRect df k dn ∈ (databases df).enum.flatMap (fun p => dbShapes df p.1 p.2)
    rw [List.mem_flatMap]
    refine ⟨(k, dn), List.mem_enum_iff_getElem?.mpr h, ?_⟩
    simp [dbShapes]
  · rw [db_right, db_width, db_width_raw]
    ring

/-- Claim C8, witness: the amended claim at a one-table database, where the
border width is `max(150, 150) + 20 = 170`. -/
theorem claim_c8_witness :
    dbBorderRect exDf1 0 "A" ∈ (generate_network_graph exDf1).shapes ∧
    db_right exDf1 0 "A" - db_left exDf1 0 =
      max 150 (((dbTables exDf1 "A").length : ℚ) * (table_width + table_padding)
        - table_padding) + table_padding :=
  claim_c8 exDf1 0 "A" rfl

/-! Claim C10. -/

/-- Claim C10 (confirmed): in the app's filtering step, whenever the selected
tables list it computes is non-empty, a row is retained exactly when its
database is in the selected databases and its table name — the plain name, not
the (database, table) composite — is in the selected tables, so selecting a
table name keeps the like-named table in every selected database. -/
theorem claim_c10 (df : List Row) (selected_db user_choice : List String) (r : Row)
    (hT : app_selected_tables selected_db user_choice ≠ []) :
    r ∈ filtered_df df selected_db (app_selected_tables selected_db user_choice) ↔
      r ∈ df ∧ r.db ∈ selected_db ∧
        r.tbl ∈ app_selected_tables selected_db user_choice := by
  have hS : selected_db ≠ [] := by
    intro hnil
    exact hT (by simp [app_selected_tables, hnil])
  have hSe : selected_db.isEmpty = false := by
    simpa [List.isEmpty_iff] using hS
  have hTe : (app_selected_tables selected_db user_choice).isEmpty = false := by
    simpa [List.isEmpty_iff] using hT
  rw [filtered_df]
  simp only [hSe, hTe, Bool.false_eq_true, if_false]
  simp [List.mem_filter, and_assoc]
  tauto

/-- Claim C10, witness: with databases A and B selected and table name `T1`
selected, the row (B, T1, C2) is retained — the like-named table is kept in
every selected database. -/
theorem claim_c10_witness :
    (⟨"B", "T1", "C2"⟩ : Row) ∈
      filtered_df exDf10 ["A", "B"] (app_selected_tables ["A", "B"] ["T1"]) ↔
      (⟨"B", "T1", "C2"⟩ : Row) ∈ exDf10 ∧ "B" ∈ ["A", "B"] ∧
        "T1" ∈ app_selected_tables ["A", "B"] ["T1"] :=
  claim_c10 exDf10 ["A", "B"] ["T1"] ⟨"B", "T1", "C2"⟩ (by decide)

end DBViz
